import Mathlib

/-!
Verification of `function_schema` (comfuture/function-schema).

This file gives a shallow embedding of `function_schema/core.py` (the
`guess_type` and `get_function_schema` functions) together with the data
shapes they consume (Python type expressions, parameter metadata items,
default values) and proves or refutes the specification claims about them.

Modelling conventions:
* Python values occurring as literal-set members, defaults and enum entries
  are modelled by `PyVal` (None, bool, int, str — the kinds exercised by the
  library and its tests).
* Python type expressions are modelled by `TypeExpr`: plain classes
  (`typing.get_origin` is `None` and the object is a `type`), `typing.Any`,
  `typing.Union`/`Optional`, `typing.Literal`, `typing.Annotated`,
  subscripted generics (`list[int]`, ...), and non-class expressions such as
  a bare `TypeVar`.  The unannotated case (`inspect._empty`, which is itself
  a class) is the plain class `PyClass.empty`.
* Fallible code is modelled in `Except String`: `isinstance` with a
  non-class second argument raises `TypeError`, and `set(...)` over
  unhashable elements raises, exactly where CPython (3.10+) raises.
* `list(set(xs))` deduplicates with an iteration order CPython does not
  specify (string hashing is randomized per process).  `firstSeen` fixes one
  admissible order (first occurrence).  No theorem below about list
  membership or about single-element results depends on this choice.
* The produced JSON-like documents are `JVal` key/value trees, so that a
  key that is present with value `None` (`JVal.null`) is distinguishable
  from an absent key, as in a Python dict.
-/

namespace FunctionSchema

/-- Python runtime values that appear in `Literal[...]` argument tuples,
parameter defaults and enum lists. -/
inductive PyVal
  | noneV
  | boolV (b : Bool)
  | intV (n : Int)
  | strV (s : String)
deriving DecidableEq

/-- Python truthiness (`bool(v)`) of the modelled values: `None`, `False`,
`0` and `""` are falsy. -/
def PyVal.truthy : PyVal → Bool
  | .noneV => false
  | .boolV b => b
  | .intV n => n != 0
  | .strV s => s != ""

/-- The plain Python classes the library distinguishes: the branches of the
tail of `guess_type` (`str`, `bool`, `float`/`int`, `list`, `dict`,
`NoneType`), the `inspect._empty` sentinel class of unannotated parameters,
and arbitrary other classes. -/
inductive PyClass
  | strC | boolC | intC | floatC | nonetype | listC | dictC | empty | custom (name : String)
deriving DecidableEq

/-- `type(v)` for the modelled values. -/
def PyVal.pyType : PyVal → PyClass
  | .noneV => .nonetype
  | .boolV _ => .boolC
  | .intV _ => .intC
  | .strV _ => .strC

/-- Embedding of `function_schema/field.py`: the `FieldInfo` dataclass.
Every attribute is optional; `None` means "not set".  Numeric bounds are
modelled over `Int`. -/
structure FieldInfo where
  type : Option String
  description : Option String
  enum : Option (List PyVal)
  required : Option Bool
  minimum : Option Int
  maximum : Option Int
  exclusive_minimum : Option Int
  exclusive_maximum : Option Int
  max_length : Option Int
  min_length : Option Int
  pattern : Option String

/-- A metadata item attached to an `Annotated[...]` parameter: a plain
string, a `Doc(...)` object, an `enum.Enum` subclass (represented by its
member names in declaration order), a `FieldInfo` instance, or a raw dict
of schema keys. -/
inductive MetaItem
  | strM (s : String)
  | doc (s : String)
  | enumCls (names : List String)
  | fieldInfo (fi : FieldInfo)
  | mapping (kvs : List (String × PyVal))

/-- Python type expressions, as the library inspects them through
`typing.get_origin` / `typing.get_args`.  `generic` covers subscripted
generics such as `list[int]` or `dict[str, int]` (origin plus arguments);
`typeVar` stands for a non-class expression with no recognized origin. -/
inductive TypeExpr
  | any
  | cls (c : PyClass)
  | union (args : List TypeExpr)
  | literal (vals : List PyVal)
  | annotated (t : TypeExpr) (metas : List MetaItem)
  | generic (origin : PyClass) (args : List TypeExpr)
  | typeVar (name : String)

/-- JSON-like values, the output document shape of `get_function_schema`.
An `obj` is an ordered key/value list, as a Python dict is ordered. -/
inductive JVal
  | null
  | b (x : Bool)
  | i (x : Int)
  | s (x : String)
  | arr (xs : List JVal)
  | obj (kvs : List (String × JVal))

/-- Conversion of a Python value into the output document. -/
def PyVal.toJVal : PyVal → JVal
  | .noneV => .null
  | .boolV x => .b x
  | .intV n => .i n
  | .strV s => .s s

/-- The result of `guess_type`: Python `None` (no token), the empty schema
`{}` returned for `typing.Any`, a single token string, or a list of token
strings. -/
inductive GuessResult
  | noneR
  | emptySchema
  | tok (s : String)
  | toks (l : List String)
deriving DecidableEq

/-- How a `guess_type` result is stored under the `"type"` key of a
property: Python `None` serializes as JSON null. -/
def GuessResult.toJVal : GuessResult → JVal
  | .noneR => .null
  | .emptySchema => .obj []
  | .tok s => .s s
  | .toks l => .arr (l.map JVal.s)

def GuessResult.isNoneR : GuessResult → Bool
  | .noneR => true
  | _ => false

def GuessResult.isTok : GuessResult → Bool
  | .tok _ => true
  | _ => false

def GuessResult.tokStr : GuessResult → Option String
  | .tok s => some s
  | _ => none

/-- First-occurrence deduplication with an accumulator of already-seen
elements.  This is the fixed iteration order chosen for `list(set(xs))`
(see the header comment). -/
def firstSeenAux {α : Type} [DecidableEq α] (seen : List α) : List α → List α
  | [] => []
  | x :: xs => if x ∈ seen then firstSeenAux seen xs else x :: firstSeenAux (x :: seen) xs

/-- Model of `list(set(xs))`: the distinct elements of `xs`, here in first
occurrence order. -/
def firstSeen {α : Type} [DecidableEq α] (l : List α) : List α := firstSeenAux [] l

/-- The tail of `guess_type` for a plain class `T` (core.py lines 228-246):
`NoneType` yields Python `None`; then `issubclass` checks against `str`,
`bool` (deliberately before the numeric check, since `bool` is a subclass
of `int`), `float`/`int` unified to `"number"` (the `"integer"` branch is
commented out in the source), and the `list`/`dict` name checks; any other
class falls off the end and yields `None`. -/
def classGuess : PyClass → GuessResult
  | .nonetype => .noneR
  | .strC => .tok "string"
  | .boolC => .tok "boolean"
  | .floatC => .tok "number"
  | .intC => .tok "number"
  | .listC => .tok "array"
  | .dictC => .tok "object"
  | .empty => .noneR
  | .custom _ => .noneR

/-- The union tail of `guess_type` (core.py lines 206-218) applied to the
member results: drop the `None` results (the source also drops `NoneType`
members before recursing, which yields the same list since
`guess_type(NoneType)` is `None`), build `list(set(...))` — raising
`TypeError` when a member result is unhashable (`{}` or a list) — and
return the single element unwrapped when exactly one distinct token
remains. -/
def unionGuess (rs : List GuessResult) : Except String GuessResult :=
  let rs2 := rs.filter (fun r => !r.isNoneR)
  if rs2.all GuessResult.isTok then
    match firstSeen (rs2.filterMap GuessResult.tokStr) with
    | [t] => .ok (.tok t)
    | ts => .ok (.toks ts)
  else .error "TypeError: unhashable type"

/-- The `typing.Literal` branch of `guess_type` (core.py lines 220-222):
`typing.Union[tuple(type(arg) for arg in get_args(T))]`.  `typing.Union`
deduplicates its arguments preserving first occurrence and collapses a
one-element union to the bare class, on which `guess_type` then runs its
plain-class tail; an empty tuple makes `typing.Union` raise.  All members
are plain classes, so the recursive calls of the union branch reduce to
`classGuess`. -/
def literalGuess (vals : List PyVal) : Except String GuessResult :=
  match firstSeen (vals.map PyVal.pyType) with
  | [] => .error "TypeError: Cannot take a Union of no types."
  | [c] => .ok (classGuess c)
  | cs => unionGuess (cs.map classGuess)

mutual

/-- Embedding of `guess_type` (core.py lines 187-246). -/
def guess_type : TypeExpr → Except String GuessResult
  | .any => .ok .emptySchema
  | .annotated t _ => guess_type t
  | .union args =>
      match guessList args with
      | .error e => .error e
      | .ok rs => unionGuess rs
  | .literal vals => literalGuess vals
  | .generic origin _ =>
      match origin with
      | .listC => .ok (.tok "array")
      | .dictC => .ok (.tok "object")
      | _ => .ok .noneR
  | .cls c => .ok (classGuess c)
  | .typeVar _ => .ok .noneR

/-- `guess_type` mapped over union members, propagating the first raise. -/
def guessList : List TypeExpr → Except String (List GuessResult)
  | [] => .ok []
  | t :: ts =>
      match guess_type t with
      | .error e => .error e
      | .ok r =>
          match guessList ts with
          | .error e => .error e
          | .ok rs => .ok (r :: rs)

end

/-- `issubclass(NoneType, arg)` scanned over union members in order, as
`typing.Union.__subclasscheck__` does on CPython 3.10+: a `True` member
short-circuits; a non-class member raises `TypeError`. -/
def issubclassNoneUnion : List TypeExpr → Except String Bool
  | [] => .ok false
  | .cls c :: rest => if c = .nonetype then .ok true else issubclassNoneUnion rest
  | _ :: _ => .error "TypeError: issubclass() arg 2 must be a class"

/-- `isinstance(None, T)` on CPython 3.10+ (used by the required check in
core.py line 167): true exactly for `NoneType` and for unions containing
`NoneType`; `typing.Any`, `typing.Literal`, `typing.Annotated`,
parameterized generics and other non-class expressions raise `TypeError`. -/
def isinstance_none : TypeExpr → Except String Bool
  | .cls c => .ok (c = .nonetype)
  | .union args => issubclassNoneUnion args
  | .any => .error "TypeError: typing.Any cannot be used with isinstance"
  | .literal _ => .error "TypeError: Subscripted generics cannot be used with class and instance checks"
  | .annotated _ _ => .error "TypeError: Subscripted generics cannot be used with class and instance checks"
  | .generic _ _ => .error "TypeError: isinstance argument 2 cannot be a parameterized generic"
  | .typeVar _ => .error "TypeError: isinstance arg 2 must be a type or tuple of types"

/-- A parameter as `inspect.signature` reports it: its annotation (the
class `PyClass.empty` models `inspect._empty`, i.e. no annotation) and its
default value if any (`some PyVal.noneV` is an explicit `None` default,
`none` is no default). -/
structure PyParam where
  annot : TypeExpr
  default : Option PyVal

/-- A function as the library inspects it: `__name__`, `inspect.getdoc`
and the ordered parameters. -/
structure PyFunc where
  name : String
  docstring : Option String
  params : List (String × PyParam)

/-- The effective type of a parameter: the first argument of an
`Annotated[...]` annotation, otherwise the annotation itself
(core.py lines 126 and 145). -/
def effType (p : PyParam) : TypeExpr :=
  match p.annot with
  | .annotated t _ => t
  | t => t

/-- Description resolution for an annotated parameter (core.py lines
129-132): the first metadata item that is a `Doc` or a plain `str`,
unwrapped by `unwrap_doc`; otherwise the synthesized placeholder.  The scan
in the source runs over the whole `Annotated` argument tuple including the
type expression itself, which is neither a `Doc` nor a `str` instance, so
scanning the metadata items is equivalent. -/
def descriptionOf (name : String) (param_args : List MetaItem) : String :=
  match param_args.find? (fun m => match m with | .doc _ => true | .strM _ => true | _ => false) with
  | some (.doc s) => s
  | some (.strM s) => s
  | _ => "The " ++ name ++ " parameter"

/-- Enum resolution for an annotated parameter (core.py lines 135-143):
the member names of the first `enum.Enum` subclass among the metadata
items; otherwise `get_origin(T) is Literal and get_args(T) or None`, whose
`and`/`or` chain yields the literal tuple when non-empty and `None`
otherwise. -/
def enumOf (param_args : List MetaItem) (T : TypeExpr) : Option (List PyVal) :=
  match param_args.find? (fun m => match m with | .enumCls _ => true | _ => false) with
  | some (.enumCls names) => some (names.map PyVal.strV)
  | _ =>
      match T with
      | .literal vals => if vals.isEmpty then none else some vals
      | _ => none

/-- The names a parameter contributes to `schema["required"]` (core.py
lines 165-174).  The first `if` requires, in this order: origin not
`Literal`, `not isinstance(None, T)` (which may raise), and no default.
The second `if` appends the name when the origin is `Literal` and
`all(get_args(T))` — truthiness of every literal value, with no look at
the default.  The two guards are disjoint, so they are merged into one
match. -/
def requiredNonLiteral (name : String) (T : TypeExpr) (default_value : Option PyVal) :
    Except String (List String) :=
  match isinstance_none T with
  | .error e => .error e
  | .ok noneOk => .ok (if noneOk = false ∧ default_value = none then [name] else [])

def requiredAdds (name : String) (T : TypeExpr) (default_value : Option PyVal) :
    Except String (List String) :=
  match T with
  | .literal vals => .ok (if vals.all PyVal.truthy then [name] else [])
  | _ => requiredNonLiteral name T default_value

/-- `inspect.getdoc` result in the output document: the docstring or JSON
null. -/
def docJVal : Option String → JVal
  | some s => .s s
  | none => .null

/-- The body of the parameter loop of `get_function_schema` (core.py lines
117-174) for one parameter: the property object (keys `type` and
`description` always present — `type` with a null value when `guess_type`
returns `None` — then `enum` and `default` when set) and the names added
to the `required` list. -/
def processParam (name : String) (p : PyParam) : Except String (JVal × List String) :=
  let T := effType p
  let description :=
    match p.annot with
    | .annotated _ param_args => descriptionOf name param_args
    | _ => "The " ++ name ++ " parameter"
  let enum_ : Option (List PyVal) :=
    match p.annot with
    | .annotated _ param_args => enumOf param_args T
    | _ =>
        match T with
        | .literal vals => some vals
        | _ => none
  match guess_type T with
  | .error e => .error e
  | .ok t =>
      let prop : List (String × JVal) :=
        [("type", t.toJVal), ("description", .s description)]
        ++ (match enum_ with
            | some vs => [("enum", .arr ((vs.filter (fun v => v ≠ PyVal.noneV)).map PyVal.toJVal))]
            | none => [])
        ++ (match p.default with
            | some v => [("default", v.toJVal)]
            | none => [])
      match requiredAdds name T p.default with
      | .error e => .error e
      | .ok reqs => .ok (.obj prop, reqs)

/-- The parameter loop of `get_function_schema`: properties in declaration
order and the concatenated `required` contributions, stopping at the first
raise. -/
def buildParams : List (String × PyParam) → Except String (List (String × JVal) × List String)
  | [] => .ok ([], [])
  | (n, p) :: rest =>
      match processParam n p with
      | .error e => .error e
      | .ok (prop, reqs) =>
          match buildParams rest with
          | .error e => .error e
          | .ok (props, restReqs) => .ok ((n, prop) :: props, reqs ++ restReqs)

/-- The top-level key chosen from the `format` argument (core.py line 176):
`input_schema` exactly for `"claude"`, otherwise `parameters`. -/
def dialectKey (format : String) : String :=
  if format = "claude" then "input_schema" else "parameters"

/-- Embedding of `get_function_schema` (core.py lines 60-184).  The final
`schema["required"] = list(set(schema["required"]))` is `firstSeen`. -/
def get_function_schema (func : PyFunc) (format : String) : Except String JVal :=
  match buildParams func.params with
  | .error e => .error e
  | .ok (props, reqs) =>
      .ok (.obj
        [("name", .s func.name),
         ("description", docJVal func.docstring),
         (dialectKey format, .obj
           [("type", .s "object"),
            ("properties", .obj props),
            ("required", .arr ((firstSeen reqs).map JVal.s))])])

/-- Whether `typing.get_origin` of the expression is `typing.Literal`. -/
def TypeExpr.isLiteralOrigin : TypeExpr → Bool
  | .literal _ => true
  | _ => false

/-- Whether a type expression is the `NoneType` class. -/
def TypeExpr.isNoneTypeCls : TypeExpr → Bool
  | .cls .nonetype => true
  | _ => false

/-- `typing.Optional[T]`, i.e. `typing.Union[T, None]`: for a union,
`typing` flattens and appends `NoneType` unless already present (its
arguments are already deduplicated); `Optional[None]` is `NoneType`
itself; otherwise the two-member union. -/
def pyOptional : TypeExpr → TypeExpr
  | .union args => .union (if args.any TypeExpr.isNoneTypeCls then args else args ++ [.cls .nonetype])
  | .cls .nonetype => .cls .nonetype
  | t => .union [t, .cls .nonetype]

/-- Key lookup in an output object (a Python dict access that returns
`None`-as-absent when the key is missing). -/
def JVal.lookupKey : JVal → String → Option JVal
  | .obj kvs, k => (kvs.find? (fun kv => kv.1 = k)).map Prod.snd
  | _, _ => none

/-- The schema object wrapped under the dialect-specific top-level key. -/
def schemaBody (j : JVal) (format : String) : Option JVal :=
  j.lookupKey (dialectKey format)

/-- The names listed under `required` in an output document. -/
def requiredOf (j : JVal) (format : String) : List String :=
  match (schemaBody j format).bind (fun sc => sc.lookupKey "required") with
  | some (.arr xs) => xs.filterMap (fun v => match v with | .s nm => some nm | _ => none)
  | _ => []

/-- The property object emitted for a given parameter name. -/
def propertyOf (j : JVal) (format : String) (pname : String) : Option JVal :=
  ((schemaBody j format).bind (fun sc => sc.lookupKey "properties")).bind
    (fun ps => ps.lookupKey pname)

/-- Whether a call returned normally (no exception). -/
def exceptOk {ε α : Type} : Except ε α → Bool
  | .ok _ => true
  | .error _ => false

/-- Renaming of one top-level key of an output object. -/
def renameTopKey (src dst : String) : JVal → JVal
  | .obj kvs => .obj (kvs.map (fun kv => (if kv.1 = src then dst else kv.1, kv.2)))
  | v => v

/-- Embedding of `FieldInfo.to_dict` (field.py lines 72-86): the set
attributes under their JSON schema key names, in attribute order. -/
def FieldInfo.to_dict (f : FieldInfo) : List (String × JVal) :=
  (([("type", f.type.map JVal.s),
     ("description", f.description.map JVal.s),
     ("enum", f.enum.map (fun vs => JVal.arr (vs.map PyVal.toJVal))),
     ("required", f.required.map JVal.b),
     ("minimum", f.minimum.map JVal.i),
     ("maximum", f.maximum.map JVal.i),
     ("exclusiveMinimum", f.exclusive_minimum.map JVal.i),
     ("exclusiveMaximum", f.exclusive_maximum.map JVal.i),
     ("maxLength", f.max_length.map JVal.i),
     ("minLength", f.min_length.map JVal.i),
     ("pattern", f.pattern.map JVal.s)] : List (String × Option JVal)).filterMap
    (fun kv => kv.2.map (fun v => (kv.1, v))))

/-! Concrete functions used by the claim theorems, written as
`inspect.signature` would report them. -/

/-- `def f1(x: Literal["a"] = "a"): ...` — a `Literal`-typed parameter with
a default. -/
def c1fn : PyFunc :=
  ⟨"f1", none, [("x", ⟨.literal [.strV "a"], some (.strV "a")⟩)]⟩

/-- The document `get_function_schema(f1)` produces: the property carries
the default, yet `required` contains `x`. -/
def c1out : JVal :=
  .obj
    [("name", .s "f1"),
     ("description", .null),
     ("parameters", .obj
       [("type", .s "object"),
        ("properties", .obj
          [("x", .obj
            [("type", .s "string"),
             ("description", .s "The x parameter"),
             ("enum", .arr [.s "a"]),
             ("default", .s "a")])]),
        ("required", .arr [.s "x"])])]

/-- `def g1(x: str = "a"): ...` — a non-`Literal` parameter with a
default, used to instantiate the amended claim C1. -/
def c1wFn : PyFunc :=
  ⟨"g1", none, [("x", ⟨.cls .strC, some (.strV "a")⟩)]⟩

/-- The document `get_function_schema(g1)` produces. -/
def c1wOut : JVal :=
  .obj
    [("name", .s "g1"),
     ("description", .null),
     ("parameters", .obj
       [("type", .s "object"),
        ("properties", .obj
          [("x", .obj
            [("type", .s "string"),
             ("description", .s "The x parameter"),
             ("default", .s "a")])]),
        ("required", .arr [])])]

/-- `def f2(x: Literal[0, 1]): ...` — a `Literal` whose values are all
non-null but not all truthy, with no default. -/
def c2fn : PyFunc :=
  ⟨"f2", none, [("x", ⟨.literal [.intV 0, .intV 1], none⟩)]⟩

/-- The document `get_function_schema(f2)` produces: `required` is empty
although no literal value is null. -/
def c2out : JVal :=
  .obj
    [("name", .s "f2"),
     ("description", .null),
     ("parameters", .obj
       [("type", .s "object"),
        ("properties", .obj
          [("x", .obj
            [("type", .s "number"),
             ("description", .s "The x parameter"),
             ("enum", .arr [.i 0, .i 1])])]),
        ("required", .arr [])])]

/-- `def g2(y: Literal["a", "b"]): ...` — all literal values truthy. -/
def c2wFn : PyFunc :=
  ⟨"g2", none, [("y", ⟨.literal [.strV "a", .strV "b"], none⟩)]⟩

/-- The document `get_function_schema(g2)` produces. -/
def c2wOut : JVal :=
  .obj
    [("name", .s "g2"),
     ("description", .null),
     ("parameters", .obj
       [("type", .s "object"),
        ("properties", .obj
          [("y", .obj
            [("type", .s "string"),
             ("description", .s "The y parameter"),
             ("enum", .arr [.s "a", .s "b"])])]),
        ("required", .arr [.s "y"])])]

/-- `FieldInfo(minimum=1, maximum=100)` — the metadata of
`test_fieldinfo_min_max` in `test/test_additional_field.py`. -/
def c3fi : FieldInfo :=
  ⟨none, none, none, none, some 1, some 100, none, none, none, none, none⟩

/-- `def func(a: Annotated[int, FieldInfo(minimum=1, maximum=100)],
b: Annotated[int, {"minimum": 10}]): ...` — the inputs of
`test_fieldinfo_min_max` and `test_dict_as_additional_field`. -/
def c3fn : PyFunc :=
  ⟨"func", none,
    [("a", ⟨.annotated (.cls .intC) [.fieldInfo c3fi], none⟩),
     ("b", ⟨.annotated (.cls .intC) [.mapping [("minimum", .intV 10)]], none⟩)]⟩

/-- `def h(x: Foo): ...` for a user-defined class `Foo` that `guess_type`
cannot classify. -/
def c4fn : PyFunc :=
  ⟨"h", none, [("x", ⟨.cls (.custom "Foo"), none⟩)]⟩

/-- `def k(z: T): ...` where the annotation is a bare `TypeVar` — a
non-class type expression. -/
def c4errFn : PyFunc :=
  ⟨"k", none, [("z", ⟨.typeVar "T", none⟩)]⟩

/-- `def func1(a: Annotated[int, "An integer parameter", Doc("A number")]):
...` — the input of `test_mixed_docs_in_annotation` in
`test/test_pep_0727_doc.py`. -/
def c6fn : PyFunc :=
  ⟨"func1", some "My function",
    [("a", ⟨.annotated (.cls .intC)
        [.strM "An integer parameter", .doc "A number"], none⟩)]⟩

/-- `def t(): ...` — a trivial function for exercising format handling. -/
def c7fn : PyFunc := ⟨"t", none, []⟩

/-- `def f(city: str, unit: Optional[str] = "celsius"): "Returns weather."`
— the end-to-end example of the specification. -/
def weatherFn : PyFunc :=
  ⟨"f", some "Returns weather.",
    [("city", ⟨.cls .strC, none⟩),
     ("unit", ⟨.union [.cls .strC, .cls .nonetype], some (.strV "celsius")⟩)]⟩

/-- The document the specification requires for `weatherFn`. -/
def weatherExpected : JVal :=
  .obj
    [("name", .s "f"),
     ("description", .s "Returns weather."),
     ("parameters", .obj
       [("type", .s "object"),
        ("properties", .obj
          [("city", .obj
            [("type", .s "string"),
             ("description", .s "The city parameter")]),
           ("unit", .obj
            [("type", .s "string"),
             ("description", .s "The unit parameter"),
             ("default", .s "celsius")])]),
        ("required", .arr [.s "city"])])]

/-- An unclassifiable plain class, for claim C9. -/
def fooCls : TypeExpr := .cls (.custom "Foo")

/-- `def m(a: str, z): ...` — a function with one annotated and one
unannotated parameter. -/
def c10Fn : PyFunc :=
  ⟨"m", none,
    [("a", ⟨.cls .strC, none⟩),
     ("z", ⟨.cls .empty, none⟩)]⟩

/-- The document `get_function_schema(m)` produces. -/
def c10Out : JVal :=
  .obj
    [("name", .s "m"),
     ("description", .null),
     ("parameters", .obj
       [("type", .s "object"),
        ("properties", .obj
          [("a", .obj
            [("type", .s "string"),
             ("description", .s "The a parameter")]),
           ("z", .obj
            [("type", JVal.null),
             ("description", .s "The z parameter")])]),
        ("required", .arr [.s "a", .s "z"])])]

/-! General lemmas about the embedding, shared by the claim theorems. -/

/-- Membership in the deduplication accumulator recursion. -/
theorem mem_firstSeenAux {α : Type} [DecidableEq α] (x : α) :
    ∀ (l seen : List α), x ∈ firstSeenAux seen l ↔ (x ∈ l ∧ x ∉ seen)
  | [], seen => by simp [firstSeenAux]
  | y :: ys, seen => by
      by_cases hy : y ∈ seen
      · simp only [firstSeenAux, if_pos hy, mem_firstSeenAux x ys seen, List.mem_cons]
        constructor
        · rintro ⟨h1, h2⟩
          exact ⟨Or.inr h1, h2⟩
        · rintro ⟨h1 | h1, h2⟩
          · exact absurd (by rw [h1]; exact hy) h2
          · exact ⟨h1, h2⟩
      · simp only [firstSeenAux, if_neg hy, mem_firstSeenAux x ys (y :: seen), List.mem_cons]
        constructor
        · rintro (h | ⟨h1, h2⟩)
          · refine ⟨Or.inl h, fun hs => hy ?_⟩
            rw [← h]; exact hs
          · exact ⟨Or.inr h1, fun hs => h2 (Or.inr hs)⟩
        · rintro ⟨h1 | h1, h2⟩
          · exact Or.inl h1
          · by_cases hxy : x = y
            · exact Or.inl hxy
            · exact Or.inr ⟨h1, fun hs => hs.elim hxy h2⟩

/-- `firstSeen` preserves membership: deduplication only drops repeats. -/
theorem mem_firstSeen {α : Type} [DecidableEq α] (x : α) (l : List α) :
    x ∈ firstSeen l ↔ x ∈ l := by
  simp [firstSeen, mem_firstSeenAux]

/-- Reading back names stored as `JVal.s` entries. -/
theorem filterMap_s_map_s (l : List String) :
    List.filterMap ((fun v => match v with | JVal.s nm => some nm | _ => none) ∘ JVal.s) l = l := by
  induction l with
  | nil => rfl
  | cons a as ih => simp [Function.comp, ih]

/-- A guard of the shape used by the required check adds either nothing or
the parameter name. -/
theorem if_name_opts {c : Prop} [Decidable c] (name : String) :
    (if c then [name] else []) = [] ∨ (if c then [name] else []) = [name] := by
  by_cases h : c <;> simp [h]

/-- The `Literal` case of the required contribution (core.py lines
172-174): the name is added iff all literal values are truthy, with no
look at the default. -/
theorem requiredAdds_literal (name : String) (vals : List PyVal) (d : Option PyVal) :
    requiredAdds name (.literal vals) d
      = .ok (if vals.all PyVal.truthy then [name] else []) := rfl

/-- The non-`Literal` branch contributes nothing or the parameter name. -/
theorem requiredNonLiteral_opts (name : String) (T : TypeExpr) (d : Option PyVal)
    (reqs : List String) (h : requiredNonLiteral name T d = .ok reqs) :
    reqs = [] ∨ reqs = [name] := by
  simp only [requiredNonLiteral] at h
  cases he : isinstance_none T with
  | error e => rw [he] at h; simp at h
  | ok noneOk =>
      rw [he] at h
      simp only [Except.ok.injEq] at h
      rw [← h]
      exact if_name_opts name

/-- A parameter contributes at most its own name to `required`. -/
theorem requiredAdds_opts (name : String) (T : TypeExpr) (d : Option PyVal)
    (reqs : List String) (h : requiredAdds name T d = .ok reqs) :
    reqs = [] ∨ reqs = [name] := by
  cases T
  case literal vals =>
    rw [requiredAdds_literal] at h
    simp only [Except.ok.injEq] at h
    rw [← h]
    exact if_name_opts name
  all_goals
    simp only [requiredAdds] at h
    exact requiredNonLiteral_opts name _ d reqs h

/-- With a default present the non-`Literal` branch adds nothing. -/
theorem requiredNonLiteral_default (name : String) (T : TypeExpr) (v : PyVal)
    (reqs : List String) (h : requiredNonLiteral name T (some v) = .ok reqs) :
    reqs = [] := by
  simp only [requiredNonLiteral] at h
  cases he : isinstance_none T with
  | error e => rw [he] at h; simp at h
  | ok noneOk =>
      rw [he] at h
      simp only [Except.ok.injEq] at h
      rw [← h]
      simp

/-- A parameter whose effective type is not a `Literal` and which has a
default contributes nothing to `required`. -/
theorem requiredAdds_default (name : String) (T : TypeExpr) (v : PyVal)
    (reqs : List String) (hT : T.isLiteralOrigin = false)
    (h : requiredAdds name T (some v) = .ok reqs) : reqs = [] := by
  cases T
  case literal vals => simp [TypeExpr.isLiteralOrigin] at hT
  all_goals
    simp only [requiredAdds] at h
    exact requiredNonLiteral_default name _ v reqs h

/-- A successful `processParam` yields exactly the `requiredAdds`
contribution. -/
theorem processParam_req (name : String) (p : PyParam) (pr : JVal) (reqs : List String)
    (h : processParam name p = .ok (pr, reqs)) :
    requiredAdds name (effType p) p.default = .ok reqs := by
  simp only [processParam] at h
  cases hg : guess_type (effType p) with
  | error e => rw [hg] at h; simp at h
  | ok t =>
      rw [hg] at h
      cases hr : requiredAdds name (effType p) p.default with
      | error e => rw [hr] at h; simp at h
      | ok rq =>
          rw [hr] at h
          simp only [Except.ok.injEq, Prod.mk.injEq] at h
          rw [h.2]

/-- Every member parameter of a successfully built schema was processed
successfully. -/
theorem buildParams_param_ok (name : String) (p : PyParam) :
    ∀ (ps : List (String × PyParam)) (props : List (String × JVal)) (reqs : List String),
      buildParams ps = .ok (props, reqs) → (name, p) ∈ ps →
      ∃ pr rq, processParam name p = .ok (pr, rq)
  | [], _, _, _, hmem => by simp at hmem
  | (n, q) :: tl, props, reqs, h, hmem => by
      simp only [buildParams] at h
      cases hp : processParam n q with
      | error e => rw [hp] at h; simp at h
      | ok pair =>
          obtain ⟨prop, rq⟩ := pair
          rw [hp] at h
          cases hb : buildParams tl with
          | error e => rw [hb] at h; simp at h
          | ok pair2 =>
              obtain ⟨props2, reqs2⟩ := pair2
              rcases List.mem_cons.mp hmem with heq | hmem2
              · injection heq with e1 e2
                subst e1; subst e2
                exact ⟨prop, rq, hp⟩
              · exact buildParams_param_ok name p tl props2 reqs2 hb hmem2

/-- Every name in the `required` accumulator is a parameter name. -/
theorem buildParams_reqs_subset :
    ∀ (ps : List (String × PyParam)) (props : List (String × JVal)) (reqs : List String),
      buildParams ps = .ok (props, reqs) → ∀ x ∈ reqs, x ∈ ps.map Prod.fst
  | [], props, reqs, h, x, hx => by
      simp only [buildParams, Except.ok.injEq, Prod.mk.injEq] at h
      rw [← h.2] at hx
      simp at hx
  | (n, q) :: tl, props, reqs, h, x, hx => by
      simp only [buildParams] at h
      cases hp : processParam n q with
      | error e => rw [hp] at h; simp at h
      | ok pair =>
          obtain ⟨prop, rq⟩ := pair
          rw [hp] at h
          cases hb : buildParams tl with
          | error e => rw [hb] at h; simp at h
          | ok pair2 =>
              obtain ⟨props2, reqs2⟩ := pair2
              rw [hb] at h
              simp only [Except.ok.injEq, Prod.mk.injEq] at h
              rw [← h.2] at hx
              simp only [List.map_cons]
              rcases List.mem_append.mp hx with hx | hx
              · rcases requiredAdds_opts n _ _ rq (processParam_req n q prop rq hp) with h0 | h0
                · rw [h0] at hx; simp at hx
                · rw [h0] at hx
                  simp only [List.mem_singleton] at hx
                  simp [hx]
              · exact List.mem_cons_of_mem _ (buildParams_reqs_subset tl props2 reqs2 hb x hx)

/-- With distinct parameter names, a parameter whose contribution is empty
does not end up in `required`. -/
theorem buildParams_not_mem (name : String) (p : PyParam) :
    ∀ (ps : List (String × PyParam)) (props : List (String × JVal)) (reqs : List String),
      buildParams ps = .ok (props, reqs) →
      (ps.map Prod.fst).Nodup →
      (name, p) ∈ ps →
      requiredAdds name (effType p) p.default = .ok [] →
      name ∉ reqs
  | [], _, _, _, _, hmem, _ => by simp at hmem
  | (n, q) :: tl, props, reqs, h, hnd, hmem, hzero => by
      simp only [buildParams] at h
      cases hp : processParam n q with
      | error e => rw [hp] at h; simp at h
      | ok pair =>
          obtain ⟨prop, rq⟩ := pair
          rw [hp] at h
          cases hb : buildParams tl with
          | error e => rw [hb] at h; simp at h
          | ok pair2 =>
              obtain ⟨props2, reqs2⟩ := pair2
              rw [hb] at h
              simp only [Except.ok.injEq, Prod.mk.injEq] at h
              simp only [List.map_cons, List.nodup_cons] at hnd
              obtain ⟨hn1, hn2⟩ := hnd
              rw [← h.2]
              intro hin
              rcases List.mem_append.mp hin with hin | hin
              · rcases List.mem_cons.mp hmem with heq | hmem2
                · injection heq with e1 e2
                  subst e1; subst e2
                  have := processParam_req name p prop rq hp
                  rw [hzero] at this
                  simp only [Except.ok.injEq] at this
                  rw [← this] at hin
                  simp at hin
                · have hx : name ∈ List.map Prod.fst tl :=
                    List.mem_map_of_mem Prod.fst hmem2
                  rcases requiredAdds_opts n _ _ rq (processParam_req n q prop rq hp) with h0 | h0
                  · rw [h0] at hin; simp at hin
                  · rw [h0] at hin
                    simp only [List.mem_singleton] at hin
                    rw [hin] at hx
                    exact hn1 hx
              · rcases List.mem_cons.mp hmem with heq | hmem2
                · injection heq with e1 e2
                  have hx := buildParams_reqs_subset tl props2 reqs2 hb name hin
                  rw [e1] at hx
                  exact hn1 hx
                · exact buildParams_not_mem name p tl props2 reqs2 hb hn2 hmem2 hzero hin

/-- A parameter whose contribution is its own name does end up in
`required`. -/
theorem buildParams_mem (name : String) (p : PyParam) :
    ∀ (ps : List (String × PyParam)) (props : List (String × JVal)) (reqs : List String),
      buildParams ps = .ok (props, reqs) →
      (name, p) ∈ ps →
      requiredAdds name (effType p) p.default = .ok [name] →
      name ∈ reqs
  | [], _, _, _, hmem, _ => by simp at hmem
  | (n, q) :: tl, props, reqs, h, hmem, hone => by
      simp only [buildParams] at h
      cases hp : processParam n q with
      | error e => rw [hp] at h; simp at h
      | ok pair =>
          obtain ⟨prop, rq⟩ := pair
          rw [hp] at h
          cases hb : buildParams tl with
          | error e => rw [hb] at h; simp at h
          | ok pair2 =>
              obtain ⟨props2, reqs2⟩ := pair2
              rw [hb] at h
              simp only [Except.ok.injEq, Prod.mk.injEq] at h
              rw [← h.2]
              rcases List.mem_cons.mp hmem with heq | hmem2
              · injection heq with e1 e2
                subst e1; subst e2
                have := processParam_req name p prop rq hp
                rw [hone] at this
                simp only [Except.ok.injEq] at this
                rw [← this]
                simp
              · exact List.mem_append_right _
                  (buildParams_mem name p tl props2 reqs2 hb hmem2 hone)

/-- A successful `get_function_schema` call exposes its `buildParams`
result. -/
theorem gfs_ok_elim (func : PyFunc) (format : String) (j : JVal)
    (h : get_function_schema func format = .ok j) :
    ∃ props reqs, buildParams func.params = .ok (props, reqs) ∧
      j = .obj [("name", .s func.name), ("description", docJVal func.docstring),
        (dialectKey format, .obj [("type", .s "object"), ("properties", .obj props),
          ("required", .arr ((firstSeen reqs).map JVal.s))])] := by
  simp only [get_function_schema] at h
  cases hb : buildParams func.params with
  | error e => rw [hb] at h; simp at h
  | ok pair =>
      obtain ⟨props, reqs⟩ := pair
      rw [hb] at h
      simp only [Except.ok.injEq] at h
      exact ⟨props, reqs, rfl, h.symm⟩

/-- Reading the `required` list back out of an assembled document. -/
theorem requiredOf_obj (format : String) (nm : String) (ds : JVal)
    (props : List (String × JVal)) (reqs : List String) :
    requiredOf (.obj [("name", .s nm), ("description", ds),
      (dialectKey format, .obj [("type", .s "object"), ("properties", .obj props),
        ("required", .arr ((firstSeen reqs).map JVal.s))])]) format = firstSeen reqs := by
  by_cases hf : format = "claude" <;>
    simp [requiredOf, schemaBody, dialectKey, hf, JVal.lookupKey, List.find?, filterMap_s_map_s]

/-- Assembly of a one-parameter function schema from its processed
parameter. -/
theorem gfs_single (fname : String) (doc : Option String) (pname : String) (p : PyParam)
    (format : String) (pr : JVal) (reqs : List String)
    (hp : processParam pname p = .ok (pr, reqs)) :
    get_function_schema ⟨fname, doc, [(pname, p)]⟩ format = .ok (.obj
      [("name", .s fname), ("description", docJVal doc),
       (dialectKey format, .obj
         [("type", .s "object"),
          ("properties", .obj [(pname, pr)]),
          ("required", .arr ((firstSeen reqs).map JVal.s))])]) := by
  simp [get_function_schema, buildParams, hp]

/-- With distinct parameter names, the property emitted for a member
parameter is the one `processParam` produced for it. -/
theorem buildParams_find (name : String) (p : PyParam) :
    ∀ (ps : List (String × PyParam)) (props : List (String × JVal)) (reqs : List String),
      buildParams ps = .ok (props, reqs) →
      (ps.map Prod.fst).Nodup →
      (name, p) ∈ ps →
      ∃ pr rq, processParam name p = .ok (pr, rq)
        ∧ props.find? (fun kv => kv.1 = name) = some (name, pr)
  | [], _, _, _, _, hmem => by simp at hmem
  | (n, q) :: tl, props, reqs, h, hnd, hmem => by
      simp only [buildParams] at h
      cases hp : processParam n q with
      | error e => rw [hp] at h; simp at h
      | ok pair =>
          obtain ⟨prop, rq⟩ := pair
          rw [hp] at h
          cases hb : buildParams tl with
          | error e => rw [hb] at h; simp at h
          | ok pair2 =>
              obtain ⟨props2, reqs2⟩ := pair2
              rw [hb] at h
              simp only [Except.ok.injEq, Prod.mk.injEq] at h
              simp only [List.map_cons, List.nodup_cons] at hnd
              obtain ⟨hn1, hn2⟩ := hnd
              rw [← h.1]
              rcases List.mem_cons.mp hmem with heq | hmem2
              · injection heq with e1 e2
                subst e1; subst e2
                refine ⟨prop, rq, hp, ?_⟩
                rw [List.find?_cons_of_pos]
                simp
              · have hne : n ≠ name := by
                  intro he
                  exact hn1 (he ▸ List.mem_map_of_mem Prod.fst hmem2)
                obtain ⟨pr, rq2, hpp, hfind⟩ :=
                  buildParams_find name p tl props2 reqs2 hb hn2 hmem2
                refine ⟨pr, rq2, hpp, ?_⟩
                rw [List.find?_cons_of_neg]
                · exact hfind
                · simp [hne]

/-- Reading one property back out of an assembled document. -/
theorem propertyOf_obj (format nm : String) (ds : JVal) (props : List (String × JVal))
    (reqs : List String) (pname : String) :
    propertyOf (.obj [("name", .s nm), ("description", ds),
      (dialectKey format, .obj [("type", .s "object"), ("properties", .obj props),
        ("required", .arr ((firstSeen reqs).map JVal.s))])]) format pname
      = (props.find? (fun kv => kv.1 = pname)).map Prod.snd := by
  by_cases hf : format = "claude" <;>
    simp [propertyOf, schemaBody, dialectKey, hf, JVal.lookupKey, List.find?]

/-- Appending `NoneType` to a successfully classified member list appends
its `None` result. -/
theorem guessList_append_nonetype :
    ∀ (args : List TypeExpr) (rs : List GuessResult),
      guessList args = .ok rs →
      guessList (args ++ [.cls .nonetype]) = .ok (rs ++ [.noneR])
  | [], rs, h => by
      simp only [guessList, Except.ok.injEq] at h
      rw [← h]
      rfl
  | t :: ts, rs, h => by
      simp only [guessList] at h
      cases hg : guess_type t with
      | error e => rw [hg] at h; simp at h
      | ok r =>
          rw [hg] at h
          cases hl : guessList ts with
          | error e => rw [hl] at h; simp at h
          | ok rs2 =>
              rw [hl] at h
              simp only [Except.ok.injEq] at h
              show (match guess_type t with
                    | .error e => Except.error e
                    | .ok r =>
                        match guessList (ts ++ [TypeExpr.cls PyClass.nonetype]) with
                        | .error e => Except.error e
                        | .ok rs3 => Except.ok (r :: rs3))
                  = Except.ok (rs ++ [GuessResult.noneR])
              rw [hg, guessList_append_nonetype ts rs2 hl, ← h]
              rfl

/-- A trailing `None` member result does not change the union
classification. -/
theorem unionGuess_append_noneR (rs : List GuessResult) :
    unionGuess (rs ++ [.noneR]) = unionGuess rs := by
  simp [unionGuess, List.filter_append, GuessResult.isNoneR]

/-- Classifying `Union[T, None]` for a `T` that classifies to a single
token. -/
theorem guess_type_union_pair (T : TypeExpr) (s : String)
    (h : guess_type T = .ok (.tok s)) :
    guess_type (.union [T, .cls .nonetype]) = .ok (.tok s) := by
  have hl : guessList [T, .cls .nonetype] = .ok [.tok s, .noneR] := by
    simp only [guessList, h]
    rfl
  simp only [guess_type, hl]
  rfl

/-- Core of claim C9: `Optional[T]` classifies like `T` whenever `T`
classifies to a single token. -/
theorem guess_type_pyOptional (T : TypeExpr) (s : String)
    (h : guess_type T = .ok (.tok s)) :
    guess_type (pyOptional T) = .ok (.tok s) := by
  cases T with
  | union args =>
      by_cases hn : args.any TypeExpr.isNoneTypeCls
      · simpa [pyOptional, hn] using h
      · simp only [pyOptional, hn, if_neg, Bool.false_eq_true, not_false_eq_true]
        simp only [guess_type] at h ⊢
        cases hl : guessList args with
        | error e => rw [hl] at h; simp at h
        | ok rs =>
            rw [hl] at h
            have h2 : unionGuess rs = .ok (.tok s) := h
            rw [guessList_append_nonetype args rs hl]
            show unionGuess (rs ++ [.noneR]) = .ok (.tok s)
            rw [unionGuess_append_noneR]
            exact h2
  | cls c =>
      cases c
      case nonetype => simp [guess_type, classGuess] at h
      all_goals exact guess_type_union_pair _ s h
  | any => simp [guess_type] at h
  | typeVar nm => simp [guess_type] at h
  | literal vals => exact guess_type_union_pair _ s h
  | annotated t ms => exact guess_type_union_pair _ s h
  | generic o as => exact guess_type_union_pair _ s h

/-- A parameter typed `Optional[C]` for a plain class `C`, with no
default, is processed successfully and contributes nothing to
`required`. -/
theorem processParam_pyOptional_cls (n : String) (c : PyClass) :
    ∃ pr, processParam n ⟨pyOptional (.cls c), none⟩ = .ok (pr, []) := by
  cases c <;> exact ⟨_, rfl⟩

/-- Processing a parameter annotated with a plain class that `guess_type`
cannot classify: the property is emitted with a null `type` value and the
call succeeds. -/
theorem processParam_unclassifiable (pname : String) (c : PyClass) (d : Option PyVal)
    (h : classGuess c = .noneR) :
    processParam pname ⟨.cls c, d⟩ = .ok (.obj
      ([("type", JVal.null), ("description", .s ("The " ++ pname ++ " parameter"))]
        ++ (match d with | some v => [("default", v.toJVal)] | none => [])),
      if c = PyClass.nonetype then [] else (match d with | none => [pname] | some _ => [])) := by
  by_cases hc : c = PyClass.nonetype
  · subst hc
    cases d <;>
      simp [processParam, effType, guess_type, requiredAdds, requiredNonLiteral,
        isinstance_none, GuessResult.toJVal, classGuess]
  · cases d <;>
      simp [processParam, effType, guess_type, h, requiredAdds, requiredNonLiteral,
        isinstance_none, hc, GuessResult.toJVal]

/-! Claim theorems. -/

/-- C1, counterexample: for `f1(x: Literal["a"] = "a")` the parameter has
a declared default, yet its name appears in the output required list — the
`Literal` required branch never looks at the default.  This refutes the
claim that a defaulted parameter is never marked required regardless of
its type. -/
theorem C1_counterexample :
    get_function_schema c1fn "openai" = .ok c1out
    ∧ requiredOf c1out "openai" = ["x"]
    ∧ ((propertyOf c1out "openai" "x").bind (fun pr => pr.lookupKey "default")).isSome = true :=
  ⟨rfl, rfl, rfl⟩

/-- C1, amended: a parameter with a declared default whose effective type
is not a `Literal` value-set never appears in the output required list
(for distinct parameter names).  `Literal`-typed parameters are excluded:
for them the required flag ignores the default (see the
counterexample). -/
theorem C1_theorem (func : PyFunc) (format name : String) (p : PyParam) (j : JVal)
    (hmem : (name, p) ∈ func.params)
    (hnd : (func.params.map Prod.fst).Nodup)
    (hT : (effType p).isLiteralOrigin = false)
    (hd : p.default.isSome)
    (hok : get_function_schema func format = .ok j) :
    name ∉ requiredOf j format := by
  obtain ⟨props, reqs, hb, hj⟩ := gfs_ok_elim func format j hok
  rw [hj, requiredOf_obj]
  intro hin
  have hin2 : name ∈ reqs := (mem_firstSeen name reqs).mp hin
  obtain ⟨pr, rq, hpp⟩ := buildParams_param_ok name p func.params props reqs hb hmem
  have hra := processParam_req name p pr rq hpp
  obtain ⟨v, hv⟩ := Option.isSome_iff_exists.mp hd
  rw [hv] at hra
  have hrq : rq = [] := requiredAdds_default name _ v rq hT hra
  rw [hrq] at hra
  rw [← hv] at hra
  exact buildParams_not_mem name p func.params props reqs hb hnd hmem hra hin2

/-- C1, witness: for `g1(x: str = "a")` the defaulted parameter is indeed
not required. -/
theorem C1_witness : "x" ∉ requiredOf c1wOut "openai" :=
  C1_theorem c1wFn "openai" "x" ⟨.cls .strC, some (.strV "a")⟩ c1wOut
    (List.mem_singleton.mpr rfl) (by decide) rfl rfl rfl

/-- C2, counterexample: for `f2(x: Literal[0, 1])` every literal value is
non-null, yet the required list is empty — the code tests `all(...)`
truthiness, so the falsy-but-non-null value `0` does change the flag.
This refutes the claim that falsy-but-non-null values do not matter. -/
theorem C2_counterexample :
    get_function_schema c2fn "openai" = .ok c2out
    ∧ requiredOf c2out "openai" = []
    ∧ [PyVal.intV 0, PyVal.intV 1].all (fun v => v ≠ PyVal.noneV) = true :=
  ⟨rfl, rfl, rfl⟩

/-- C2, amended: a parameter whose effective type is a `Literal` value-set
is marked required iff every literal value is truthy (regardless of any
default); falsy-but-non-null values such as `0`, `False` or `""` do
prevent the required flag. -/
theorem C2_theorem (func : PyFunc) (format name : String) (p : PyParam)
    (vals : List PyVal) (j : JVal)
    (hmem : (name, p) ∈ func.params)
    (hnd : (func.params.map Prod.fst).Nodup)
    (hT : effType p = .literal vals)
    (hok : get_function_schema func format = .ok j) :
    (name ∈ requiredOf j format ↔ vals.all PyVal.truthy = true) := by
  obtain ⟨props, reqs, hb, hj⟩ := gfs_ok_elim func format j hok
  rw [hj, requiredOf_obj, mem_firstSeen]
  have hra : requiredAdds name (effType p) p.default
      = .ok (if vals.all PyVal.truthy then [name] else []) := by
    rw [hT]; exact requiredAdds_literal name vals p.default
  cases hv : vals.all PyVal.truthy with
  | true =>
      simp only [hv, if_true] at hra
      simp only [iff_true]
      exact buildParams_mem name p func.params props reqs hb hmem hra
  | false =>
      simp only [hv, if_false] at hra
      simp only [Bool.false_eq_true, iff_false]
      exact buildParams_not_mem name p func.params props reqs hb hnd hmem hra

/-- C2, witness: for `g2(y: Literal["a", "b"])` the parameter is required
iff all literal values are truthy (they are). -/
theorem C2_witness :
    ("y" ∈ requiredOf c2wOut "openai")
      ↔ [PyVal.strV "a", PyVal.strV "b"].all PyVal.truthy = true :=
  C2_theorem c2wFn "openai" "y" ⟨.literal [.strV "a", .strV "b"], none⟩
    [.strV "a", .strV "b"] c2wOut (List.mem_singleton.mpr rfl) (by decide) rfl rfl

/-- C3, code bug: `get_function_schema` of this snapshot ignores
`FieldInfo` and raw-mapping metadata items entirely — for the inputs of
`test_fieldinfo_min_max` and `test_dict_as_additional_field` the emitted
properties carry only `type` and `description`, with no `minimum` or
`maximum` keys merged in, contradicting `test/test_additional_field.py`
(which cannot even import `FieldInfo` from `function_schema.core`). -/
theorem C3_theorem :
    (get_function_schema c3fn "openai").map
      (fun j => (propertyOf j "openai" "a", propertyOf j "openai" "b"))
    = .ok (some (JVal.obj [("type", .s "number"), ("description", .s "The a parameter")]),
           some (JVal.obj [("type", .s "number"), ("description", .s "The b parameter")])) :=
  rfl

/-- C4, counterexample: for `h(x: Foo)` with an unclassifiable class `Foo`
the emitted property carries the `type` key with a null value — the key is
present, not absent; and for `k(z: T)` with a bare `TypeVar` annotation
`get_function_schema` raises (`isinstance` with a non-class second
argument).  This refutes both the absent-`type`-key part and the
never-raises part of the claim. -/
theorem C4_counterexample :
    (get_function_schema c4fn "openai").map
      (fun j => (propertyOf j "openai" "x").bind (fun pr => pr.lookupKey "type"))
      = .ok (some JVal.null)
    ∧ exceptOk (get_function_schema c4errFn "openai") = false :=
  ⟨rfl, rfl⟩

/-- C4, amended: for a parameter whose annotation is a plain class that
`guess_type` cannot classify, `get_function_schema` succeeds and emits a
property entry whose `type` key is present with a null value (and the
parameter is required exactly when it is not `NoneType`-typed and has no
default). -/
theorem C4_theorem (fname pname : String) (doc : Option String) (c : PyClass)
    (d : Option PyVal) (format : String) (h : classGuess c = .noneR) :
    get_function_schema ⟨fname, doc, [(pname, ⟨.cls c, d⟩)]⟩ format = .ok (.obj
      [("name", .s fname), ("description", docJVal doc),
       (dialectKey format, .obj
         [("type", .s "object"),
          ("properties", .obj [(pname, .obj
            ([("type", JVal.null), ("description", .s ("The " ++ pname ++ " parameter"))]
              ++ (match d with | some v => [("default", v.toJVal)] | none => [])))]),
          ("required", .arr (if c = PyClass.nonetype then []
            else match d with | none => [JVal.s pname] | some _ => []))])]) := by
  rw [gfs_single fname doc pname ⟨.cls c, d⟩ format _ _ (processParam_unclassifiable pname c d h)]
  by_cases hc : c = PyClass.nonetype <;> cases d <;> simp [hc, firstSeen, firstSeenAux]

/-- C4, witness: the amended claim at `h(x: Foo)`. -/
theorem C4_witness :
    get_function_schema ⟨"h", none, [("x", ⟨.cls (.custom "Foo"), none⟩)]⟩ "openai"
      = .ok (.obj
        [("name", .s "h"), ("description", .null),
         ("parameters", .obj
           [("type", .s "object"),
            ("properties", .obj [("x", .obj
              [("type", JVal.null), ("description", .s "The x parameter")])]),
            ("required", .arr [.s "x"])])]) :=
  C4_theorem "h" "x" none (.custom "Foo") none "openai" rfl

/-- C6, code bug: for
`func1(a: Annotated[int, "An integer parameter", Doc("A number")])` the
resolved description is the plain string, because the scan takes the first
item that is a `Doc` or a `str` — the `Doc` object is not preferred over a
preceding plain string, contradicting `test_mixed_docs_in_annotation` in
`test/test_pep_0727_doc.py` (which expects "A number"). -/
theorem C6_theorem :
    (get_function_schema c6fn "openai").map
      (fun j => (propertyOf j "openai" "a").bind (fun pr => pr.lookupKey "description"))
    = .ok (some (.s "An integer parameter")) :=
  rfl

/-- C7: any format value other than `"claude"` produces exactly the
default (`"openai"`) document — wrapped under `parameters`, never a raise
caused by the format — and `"claude"` produces the identical document with
the top-level `parameters` key renamed to `input_schema`. -/
theorem C7_theorem (func : PyFunc) (format : String) (h : format ≠ "claude") :
    get_function_schema func format = get_function_schema func "openai"
    ∧ get_function_schema func "claude"
      = (get_function_schema func "openai").map (renameTopKey "parameters" "input_schema") := by
  constructor
  · cases hb : buildParams func.params <;>
      simp [get_function_schema, hb, dialectKey, h]
  · cases hb : buildParams func.params <;>
      simp [get_function_schema, hb, dialectKey, renameTopKey, Except.map]

/-- C7, witness: the format `"bogus"` behaves like the default and
`"claude"` only renames the wrapper key. -/
theorem C7_witness :
    get_function_schema c7fn "bogus" = get_function_schema c7fn "openai"
    ∧ get_function_schema c7fn "claude"
      = (get_function_schema c7fn "openai").map (renameTopKey "parameters" "input_schema") :=
  C7_theorem c7fn "bogus" (by decide)

/-- C8: the end-to-end example — `f(city: str, unit: Optional[str] =
"celsius")` with docstring "Returns weather." yields exactly the specified
document (properties in declaration order; the required list is the
singleton `["city"]`, so its set reading is the same). -/
theorem C8_theorem : get_function_schema weatherFn "openai" = .ok weatherExpected := rfl

/-- C9, counterexample: for an unclassifiable class `Foo`, `guess_type`
yields Python `None`, but on `Optional[Foo]` it yields the empty list `[]`
— a different result, so `Optional[T]` does not classify identically to
`T` for every type `T`. -/
theorem C9_counterexample :
    guess_type (pyOptional fooCls) = .ok (.toks [])
    ∧ guess_type fooCls = .ok .noneR
    ∧ GuessResult.toks [] ≠ GuessResult.noneR :=
  ⟨rfl, rfl, by decide⟩

/-- C9, amended: whenever `guess_type` classifies `T` to a single token,
`Optional[T]` (equivalently `Union[T, None]`) classifies to the same
token; and a parameter of type `Optional[C]`, for any plain class `C`,
with no default is processed successfully and contributes nothing to the
required list. -/
theorem C9_theorem :
    (∀ (T : TypeExpr) (s : String), guess_type T = .ok (.tok s) →
        guess_type (pyOptional T) = .ok (.tok s))
    ∧ (∀ (n : String) (c : PyClass), ∃ pr,
        processParam n ⟨pyOptional (.cls c), none⟩ = .ok (pr, [])) :=
  ⟨guess_type_pyOptional, processParam_pyOptional_cls⟩

/-- C9, witness: `Optional[str]` classifies as `"string"` and an
`Optional[int]` parameter with no default contributes nothing to
`required`. -/
theorem C9_witness :
    guess_type (pyOptional (.cls .strC)) = .ok (.tok "string")
    ∧ ∃ pr, processParam "u" ⟨pyOptional (.cls .intC), none⟩ = .ok (pr, []) :=
  ⟨C9_theorem.1 (.cls .strC) "string" rfl, C9_theorem.2 "u" .intC⟩

/-- C10: for every parameter with no type annotation at all (its
annotation is the class `inspect._empty`) in any function with distinct
parameter names, the produced document has a property entry for it whose
description is the synthesized placeholder and whose `type` key carries a
null value, and the parameter is in the required list exactly when it has
no default. -/
theorem C10_theorem (func : PyFunc) (format name : String) (p : PyParam) (j : JVal)
    (hmem : (name, p) ∈ func.params)
    (hnd : (func.params.map Prod.fst).Nodup)
    (hT : p.annot = .cls .empty)
    (hok : get_function_schema func format = .ok j) :
    propertyOf j format name = some (.obj
      ([("type", JVal.null), ("description", .s ("The " ++ name ++ " parameter"))]
        ++ (match p.default with | some v => [("default", v.toJVal)] | none => [])))
    ∧ (name ∈ requiredOf j format ↔ p.default = none) := by
  obtain ⟨annot0, d⟩ := p
  have hT2 : annot0 = .cls .empty := hT
  subst hT2
  obtain ⟨props, reqs, hb, hj⟩ := gfs_ok_elim func format j hok
  obtain ⟨pr, rq, hppo, hfind⟩ :=
    buildParams_find name ⟨.cls .empty, d⟩ func.params props reqs hb hnd hmem
  have hpu := processParam_unclassifiable name .empty d rfl
  rw [hppo] at hpu
  simp only [Except.ok.injEq, Prod.mk.injEq] at hpu
  constructor
  · rw [hj, propertyOf_obj, hfind]
    simp [hpu.1]
  · rw [hj, requiredOf_obj, mem_firstSeen]
    cases d with
    | none =>
        constructor
        · intro _
          rfl
        · intro _
          exact buildParams_mem name ⟨.cls .empty, none⟩ func.params props reqs hb hmem rfl
    | some v =>
        constructor
        · intro hin
          exact absurd hin
            (buildParams_not_mem name ⟨.cls .empty, some v⟩ func.params props reqs hb hnd hmem rfl)
        · intro he
          exact absurd he (Option.some_ne_none v)

/-- C10, witness: in `m(a: str, z)` the unannotated parameter `z` gets the
placeholder description, a null `type` value, and is required. -/
theorem C10_witness :
    propertyOf c10Out "openai" "z"
      = some (.obj [("type", JVal.null), ("description", .s "The z parameter")])
    ∧ ("z" ∈ requiredOf c10Out "openai" ↔ (none : Option PyVal) = none) :=
  C10_theorem c10Fn "openai" "z" ⟨.cls .empty, none⟩ c10Out
    (List.mem_cons_of_mem _ (List.mem_singleton.mpr rfl)) (by decide) rfl rfl

end FunctionSchema

